import Mathlib

/-!
Shallow embedding of `tylerRosso/wake-on-lan` (src/main.go), a one-shot CLI
that builds a Wake-on-LAN magic packet and sends it over UDP broadcast,
or lists the system's network adapters.

Bytes are modelled as `Nat` (all byte values in play are literals below 256
or opaque address bytes; no arithmetic overflows occur anywhere in the
source, which only copies bytes). Go slices become `List Nat`; a Go `nil`
slice/pointer becomes `Option`. Calls into the operating system
(`net.Interfaces`, `Interface.Addrs`, `net.InterfaceByName`, `net.DialUDP`,
`UDPConn.Write`) are modelled by an explicit environment record `NetEnv`;
`os.Exit code` becomes an `Except Nat` error (resp. an explicit outcome
constructor) carrying the exit code.
-/

namespace WOL

/-! ## Constants (src/main.go lines 11-28) -/

-- Exit codes: `_ int = iota + 2` reserves 2 (the Go flag package's
-- ExitOnError code), then the named constants take 3..10 in order.
def macAddressNotEUI48Error : Nat := 3
def macAddressNotInformedError : Nat := 4
def networkAdapterAddressesFetchingError : Nat := 5
def networkAdapterFetchingError : Nat := 6
def networkAdaptersFetchingError : Nat := 7
def notAllWOLPayloadBytesSentError : Nat := 8
def udpConnectionError : Nat := 9
def wolPayloadSendingError : Nat := 10

/-- Exit code of the Go `flag` package with `flag.ExitOnError` when a flag
value fails to parse (this is what a `flag.Func` callback error, as returned
by `parseMACAddressFlag`, triggers); the constant block of src/main.go
reserves this value with its leading blank identifier. -/
def flagParseExitCode : Nat := 2

/-- Exit code of a Go process whose `main` returns normally. -/
def successExitCode : Nat := 0

def eui48Length : Nat := 6
def wakeOnLanUDPPort : Nat := 7
def payloadLength : Nat := eui48Length + 16 * eui48Length

/-! ## Payload builder (src/main.go lines 98-112, `createWOLPayload`)

The Go function initialises a 102-byte array whose first 6 bytes are 0xff,
then runs a nested loop (`i` over 16 repetitions, `j` over the 6 address
bytes) writing `macAddress[j]` at consecutive positions starting at 6 —
i.e. the bytes after the prefix are exactly 16 back-to-back copies of the
sequence `macAddress[0] .. macAddress[5]`.  We render that loop as the
concatenation of the 0xff prefix with 16 flattened copies of that 6-byte
sequence. `mac.getD j 0` models the Go index `macAddress[j]` (in the
program it only runs after the 6-byte length check, so the default is
never read on any reachable input). -/

def wolRepetition (mac : List Nat) : List Nat :=
  (List.range eui48Length).map (fun j => mac.getD j 0)

def createWOLPayload (mac : List Nat) : List Nat :=
  List.replicate eui48Length 0xff ++ (List.replicate 16 (wolRepetition mac)).flatten

theorem wolRepetition_length (mac : List Nat) : (wolRepetition mac).length = 6 := by
  simp [wolRepetition, eui48Length]

theorem createWOLPayload_length (mac : List Nat) :
    (createWOLPayload mac).length = 102 := by
  simp [createWOLPayload, wolRepetition, eui48Length]

theorem wolRepetition_getD (mac : List Nat) (j : Nat) (hj : j < 6) :
    (wolRepetition mac).getD j 0 = mac.getD j 0 := by
  interval_cases j <;> rfl

/-- Index into a flattened list of `n` copies of a list `l`: position
`l.length * k + j` (with `k < n`, `j < l.length`) holds `l`'s `j`-th
element. -/
theorem getD_flatten_replicate (l : List Nat) (d : Nat) (n : Nat) :
    ∀ k j : Nat, k < n → j < l.length →
      ((List.replicate n l).flatten.getD (l.length * k + j) d = l.getD j d) := by
  induction n with
  | zero => intro k j hk _; exact absurd hk (Nat.not_lt_zero k)
  | succ n ih =>
    intro k j hk hj
    rw [List.replicate_succ, List.flatten_cons]
    cases k with
    | zero =>
      rw [Nat.mul_zero, Nat.zero_add]
      exact List.getD_append _ _ _ _ hj
    | succ k =>
      have hle : l.length ≤ l.length * (k + 1) + j := by
        calc l.length ≤ l.length * (k + 1) := Nat.le_mul_of_pos_right _ (Nat.succ_pos k)
          _ ≤ l.length * (k + 1) + j := Nat.le_add_right _ _
      rw [List.getD_append_right _ _ _ _ hle]
      have hidx : l.length * (k + 1) + j - l.length = l.length * k + j := by
        rw [Nat.mul_succ, Nat.add_right_comm, Nat.add_sub_cancel]
      rw [hidx]
      exact ih k j (Nat.lt_of_succ_lt_succ hk) hj

/-- C1: For every 6-byte hardware address, `createWOLPayload` returns a
102-byte buffer whose first 6 bytes are all 0xFF and whose bytes at
positions `6 + 6*k + j` (for every `k < 16`, `j < 6`) equal the address
byte `j`. -/
theorem createWOLPayload_spec (mac : List Nat) (_h : mac.length = eui48Length) :
    (createWOLPayload mac).length = 102 ∧
    (∀ i, i < 6 → (createWOLPayload mac).getD i 0 = 0xff) ∧
    (∀ k, k < 16 → ∀ j, j < 6 →
      (createWOLPayload mac).getD (6 + 6 * k + j) 0 = mac.getD j 0) := by
  refine ⟨createWOLPayload_length mac, ?_, ?_⟩
  · intro i hi
    have hi6 : i < (List.replicate eui48Length (0xff : Nat)).length := by
      simpa [eui48Length] using hi
    rw [createWOLPayload, List.getD_append _ _ _ _ hi6]
    interval_cases i <;> rfl
  · intro k hk j hj
    have hle : (List.replicate eui48Length (0xff : Nat)).length ≤ 6 + 6 * k + j := by
      simp [eui48Length]; omega
    rw [createWOLPayload, List.getD_append_right _ _ _ _ hle]
    have hidx : 6 + 6 * k + j - (List.replicate eui48Length (0xff : Nat)).length =
        (wolRepetition mac).length * k + j := by
      simp [eui48Length, wolRepetition_length]; omega
    rw [hidx, getD_flatten_replicate _ _ _ k j hk (by rw [wolRepetition_length]; omega)]
    exact wolRepetition_getD mac j hj

/-- Witness for C1 at the spec's end-to-end example address
`AA:BB:CC:DD:EE:FF`. -/
theorem createWOLPayload_spec_witness :
    ([0xAA, 0xBB, 0xCC, 0xDD, 0xEE, 0xFF] : List Nat).length = eui48Length ∧
    ((createWOLPayload [0xAA, 0xBB, 0xCC, 0xDD, 0xEE, 0xFF]).length = 102 ∧
      (∀ i, i < 6 →
        (createWOLPayload [0xAA, 0xBB, 0xCC, 0xDD, 0xEE, 0xFF]).getD i 0 = 0xff) ∧
      (∀ k, k < 16 → ∀ j, j < 6 →
        (createWOLPayload [0xAA, 0xBB, 0xCC, 0xDD, 0xEE, 0xFF]).getD (6 + 6 * k + j) 0 =
          ([0xAA, 0xBB, 0xCC, 0xDD, 0xEE, 0xFF] : List Nat).getD j 0)) :=
  ⟨by decide, createWOLPayload_spec _ (by decide)⟩

/-! ## Network data model

`net.IP` is a byte slice: 4 bytes for IPv4, 16 for IPv6 (a 16-byte slice
may still denote an IPv4 address when it carries the v4-in-v6 prefix).
`IP.To4` (Go stdlib) returns the 4-byte form when the IP is IPv4, nil
otherwise; `IP.IsLoopback` on a 4-byte IP tests `first byte = 127`
(127.0.0.0/8).  `Interface.Addrs()` yields values of the interface type
`net.Addr`; the `switch` in `addressFromNetworkAdapter` only handles the
`*net.IPNet` case and ignores every other dynamic type. -/

def v4InV6Prefix : List Nat := [0, 0, 0, 0, 0, 0, 0, 0, 0, 0, 0xff, 0xff]

def ipTo4 (ip : List Nat) : Option (List Nat) :=
  if ip.length = 4 then some ip
  else if ip.length = 16 ∧ ip.take 12 = v4InV6Prefix then some (ip.drop 12)
  else none

def isLoopback4 (ip4 : List Nat) : Bool := ip4.getD 0 0 == 127

inductive NetAddr where
  | ipNet (ip : List Nat)
  | other
deriving DecidableEq, Repr

structure UDPAddr where
  ip : List Nat
  port : Nat
deriving DecidableEq, Repr

/-- A network adapter as the OS hands it to the program: its index and
name, plus the result its `Addrs()` call would return (either an error
message or the list of bound addresses). -/
structure Interface where
  index : Nat
  name : String
  addrs : Except String (List NetAddr)
deriving Repr

/-- The operating-system environment: interface lookup/enumeration and
the UDP socket calls, all modelled as pure oracles. `write` returns
Go's `(n int, err error)` pair from `UDPConn.Write`. -/
structure NetEnv where
  interfaceByName : String → Except String Interface
  interfaces : Except String (List Interface)
  dialUDP : Option UDPAddr → UDPAddr → Except String Unit
  write : Option UDPAddr → UDPAddr → List Nat → Nat × Option String

/-! ## Source address resolver (src/main.go lines 38-74) -/

/-- The address-selection loop of `addressFromNetworkAdapter` (lines
48-58): first `*net.IPNet` entry whose IP converts to IPv4 and is not
loopback; every other entry falls through to `continue`. -/
def firstQualifyingAddress : List NetAddr → Option UDPAddr
  | [] => none
  | NetAddr.ipNet ip :: rest =>
    match ipTo4 ip with
    | none => firstQualifyingAddress rest
    | some ipv4 =>
      if isLoopback4 ipv4 then firstQualifyingAddress rest
      else some ⟨ipv4, wakeOnLanUDPPort⟩
  | NetAddr.other :: rest => firstQualifyingAddress rest

def addressFromNetworkAdapter (networkAdapter : Interface) :
    Except Nat (Option UDPAddr) :=
  match networkAdapter.addrs with
  | Except.error _ => Except.error networkAdapterAddressesFetchingError
  | Except.ok networkAdapterAddresses =>
    Except.ok (firstQualifyingAddress networkAdapterAddresses)

def addressFromNetworkAdapterName (env : NetEnv) (networkAdapterName : String) :
    Except Nat (Option UDPAddr) :=
  match env.interfaceByName networkAdapterName with
  | Except.error _ => Except.error networkAdapterFetchingError
  | Except.ok networkAdapter => addressFromNetworkAdapter networkAdapter

/-! ## UDP connection and send (src/main.go lines 133-150, 169-188) -/

/-- The remote address literal of `openUDPConnection`:
`net.UDPAddr{IP: net.IP{255,255,255,255}, Port: wakeOnLanUDPPort}`. -/
def remoteBroadcastAddress : UDPAddr := ⟨[255, 255, 255, 255], wakeOnLanUDPPort⟩

structure UDPConn where
  localAddr : Option UDPAddr
  remoteAddr : UDPAddr
deriving DecidableEq, Repr

def openUDPConnection (env : NetEnv) (networkAdapterName : String) :
    Except Nat UDPConn :=
  match addressFromNetworkAdapterName env networkAdapterName with
  | Except.error code => Except.error code
  | Except.ok localAddress =>
    match env.dialUDP localAddress remoteBroadcastAddress with
    | Except.error _ => Except.error udpConnectionError
    | Except.ok _ => Except.ok ⟨localAddress, remoteBroadcastAddress⟩

inductive SendResult where
  | exit (code : Nat)
  | sent
deriving DecidableEq, Repr

def sendWOLPayload (env : NetEnv) (conn : UDPConn) (payload : List Nat) :
    SendResult :=
  let r := env.write conn.localAddr conn.remoteAddr payload
  match r.2 with
  | some _ => SendResult.exit wolPayloadSendingError
  | none =>
    if r.1 = payloadLength then SendResult.sent
    else SendResult.exit notAllWOLPayloadBytesSentError

/-! ## Flag checking and the main flow (src/main.go lines 76-92, 152-167, 190-214) -/

structure ProgramFlags where
  listNetworkAdapters : Bool
  macAddress : Option (List Nat)
  networkAdapterName : String

/-- `checkParsedMACAddress`: returns the exit code it would terminate
with, or `none` when the checks pass. -/
def checkParsedMACAddress (flags : ProgramFlags) : Option Nat :=
  if flags.listNetworkAdapters then none
  else if flags.macAddress = none then some macAddressNotInformedError
  else if (flags.macAddress.getD []).length ≠ eui48Length then
    some macAddressNotEUI48Error
  else none

/-- `parseMACAddressFlag`: stores the parsed address on success, returns
an error (which the flag package turns into exit code 2) when
`net.ParseMAC` fails. `parseMAC` is the stdlib parser, supplied as an
oracle. -/
def parseMACAddressFlag (parseMAC : String → Except String (List Nat))
    (macAddress : String) : Except String (List Nat) :=
  match parseMAC macAddress with
  | Except.error _ => Except.error "could not parse MAC address"
  | Except.ok mac => Except.ok mac

/-- The per-adapter body of `listNetworkAdapters` (lines 122-130) over
the enumerated adapters, collecting the printed lines
`(local IPv4 address, adapter name)` in order; a failed per-adapter
`Addrs()` call aborts with its exit code. -/
def listAdaptersLoop : List Interface → Except Nat (List (List Nat × String))
  | [] => Except.ok []
  | networkAdapter :: rest =>
    match addressFromNetworkAdapter networkAdapter with
    | Except.error code => Except.error code
    | Except.ok none => listAdaptersLoop rest
    | Except.ok (some addr) =>
      match listAdaptersLoop rest with
      | Except.error code => Except.error code
      | Except.ok lines => Except.ok ((addr.ip, networkAdapter.name) :: lines)

def listNetworkAdapters (env : NetEnv) : Except Nat (List (List Nat × String)) :=
  match env.interfaces with
  | Except.error _ => Except.error networkAdaptersFetchingError
  | Except.ok networkAdapters => listAdaptersLoop networkAdapters

/-- Outcome of a full run of `main` after flag parsing: an `os.Exit`
with a code, a successful listing (the printed lines), or a successful
send (the connection used and the payload written). The latter two end
with `main` returning, i.e. process exit code 0. -/
inductive ProgOutcome where
  | exit (code : Nat)
  | listed (lines : List (List Nat × String))
  | sentOK (conn : UDPConn) (payload : List Nat)
deriving DecidableEq, Repr

def outcomeExitCode : ProgOutcome → Nat
  | ProgOutcome.exit code => code
  | ProgOutcome.listed _ => successExitCode
  | ProgOutcome.sentOK _ _ => successExitCode

/-- `main` after `flag.Parse` succeeded: `checkParsedMACAddress`, then
either listing mode or `wakeRemoteComputer` (open the connection, build
the payload from the global `programFlags.macAddress`, send it). -/
def mainRun (env : NetEnv) (flags : ProgramFlags) : ProgOutcome :=
  match checkParsedMACAddress flags with
  | some code => ProgOutcome.exit code
  | none =>
    if flags.listNetworkAdapters then
      match listNetworkAdapters env with
      | Except.error code => ProgOutcome.exit code
      | Except.ok lines => ProgOutcome.listed lines
    else
      match openUDPConnection env flags.networkAdapterName with
      | Except.error code => ProgOutcome.exit code
      | Except.ok conn =>
        match sendWOLPayload env conn (createWOLPayload (flags.macAddress.getD [])) with
        | SendResult.exit code => ProgOutcome.exit code
        | SendResult.sent =>
          ProgOutcome.sentOK conn (createWOLPayload (flags.macAddress.getD []))

/-! ## Resolver theorems (C4, C2, C3) -/

/-- Spec-side qualifier, following the spec's words: an entry qualifies
when it is an IPv4 address and not a loopback address; IPv6 and loopback
entries (and non-IPNet entries) are ignored.  To be compared with the
source-side loop `firstQualifyingAddress`. -/
def qualifyingOf : NetAddr → Option UDPAddr
  | NetAddr.ipNet ip =>
    match ipTo4 ip with
    | some ipv4 =>
      if isLoopback4 ipv4 then none else some ⟨ipv4, wakeOnLanUDPPort⟩
    | none => none
  | NetAddr.other => none

theorem firstQualifyingAddress_eq_findSome (addrs : List NetAddr) :
    firstQualifyingAddress addrs = addrs.findSome? qualifyingOf := by
  induction addrs with
  | nil => rfl
  | cons a rest ih =>
    cases a with
    | other =>
      rw [List.findSome?_cons]
      simpa [firstQualifyingAddress, qualifyingOf] using ih
    | ipNet ip =>
      rw [List.findSome?_cons]
      cases hip : ipTo4 ip with
      | none => simp [firstQualifyingAddress, qualifyingOf, hip, ih]
      | some ipv4 =>
        by_cases hl : isLoopback4 ipv4
        · simp [firstQualifyingAddress, qualifyingOf, hip, hl, ih]
        · simp [firstQualifyingAddress, qualifyingOf, hip, hl]

def loopbackV4Sample : NetAddr := NetAddr.ipNet [127, 0, 0, 1]
def realV4Sample : NetAddr := NetAddr.ipNet [192, 168, 1, 20]
def v6Sample : NetAddr :=
  NetAddr.ipNet [0x20, 0x01, 0x0d, 0xb8, 0, 0, 0, 0, 0, 0, 0, 0, 0, 0, 0, 0x42]

/-- C4: the resolver's loop returns the first enumerated address that is
IPv4 and not loopback (the `findSome?` of the qualifier, i.e. first match
in enumeration order, skipping IPv6, loopback and non-IPNet entries); on
any ordering of {loopback-v4, real-v4, v6} it selects real-v4. -/
theorem resolver_first_ipv4_nonloopback :
    (∀ addrs : List NetAddr,
      firstQualifyingAddress addrs = addrs.findSome? qualifyingOf) ∧
    (∀ l ∈ [[loopbackV4Sample, realV4Sample, v6Sample],
            [loopbackV4Sample, v6Sample, realV4Sample],
            [realV4Sample, loopbackV4Sample, v6Sample],
            [realV4Sample, v6Sample, loopbackV4Sample],
            [v6Sample, loopbackV4Sample, realV4Sample],
            [v6Sample, realV4Sample, loopbackV4Sample]],
      firstQualifyingAddress l = some ⟨[192, 168, 1, 20], wakeOnLanUDPPort⟩) :=
  ⟨firstQualifyingAddress_eq_findSome, by decide⟩

/-- Witness for C4 at the ordering {loopback-v4, real-v4, v6} itself. -/
theorem resolver_first_ipv4_nonloopback_witness :
    firstQualifyingAddress [loopbackV4Sample, realV4Sample, v6Sample] =
      some ⟨[192, 168, 1, 20], wakeOnLanUDPPort⟩ :=
  resolver_first_ipv4_nonloopback.2 [loopbackV4Sample, realV4Sample, v6Sample]
    (by decide)

/-- An adapter whose bound addresses contain no non-loopback IPv4
address. -/
def loopbackOnlyAdapter : Interface :=
  ⟨1, "lo", Except.ok [NetAddr.ipNet [127, 0, 0, 1], NetAddr.other]⟩

/-- An environment in which every adapter lookup yields
`loopbackOnlyAdapter` and the UDP calls succeed. -/
def envNoQualifyingAddress : NetEnv where
  interfaceByName := fun _ => Except.ok loopbackOnlyAdapter
  interfaces := Except.ok [loopbackOnlyAdapter]
  dialUDP := fun _ _ => Except.ok ()
  write := fun _ _ _ => (payloadLength, none)

/-- C2 counterexample: on an adapter with no qualifying address the
resolver returns `none`, yet `openUDPConnection` does NOT terminate — it
opens the UDP socket with a nil local address (the program only exits
here if the dial itself fails). -/
theorem noQualifying_opens_socket_counterexample :
    addressFromNetworkAdapterName envNoQualifyingAddress "eth0" = Except.ok none ∧
    openUDPConnection envNoQualifyingAddress "eth0" =
      Except.ok ⟨none, remoteBroadcastAddress⟩ :=
  ⟨rfl, rfl⟩

/-- C2 amended: when the resolver finds no qualifying address, the send
step does not treat this as fatal; it passes a nil local address to the
UDP dial, and when the dial succeeds the socket is opened with a nil
local address (OS default routing). -/
theorem noQualifying_opens_nil_local (env : NetEnv) (name : String)
    (hres : addressFromNetworkAdapterName env name = Except.ok none)
    (hdial : env.dialUDP none remoteBroadcastAddress = Except.ok ()) :
    openUDPConnection env name = Except.ok ⟨none, remoteBroadcastAddress⟩ := by
  simp [openUDPConnection, hres, hdial]

/-- Witness for the amended C2 at `envNoQualifyingAddress`. -/
theorem noQualifying_opens_nil_local_witness :
    openUDPConnection envNoQualifyingAddress "eth0" =
      Except.ok ⟨none, remoteBroadcastAddress⟩ :=
  noQualifying_opens_nil_local envNoQualifyingAddress "eth0" rfl rfl

/-- An environment in which looking up an adapter by the empty name fails
(as Go's `net.InterfaceByName ""` always does). -/
def envEmptyNameLookupFails : NetEnv where
  interfaceByName := fun name =>
    if name = "" then Except.error "route ip+net: invalid network interface name"
    else Except.ok loopbackOnlyAdapter
  interfaces := Except.ok [loopbackOnlyAdapter]
  dialUDP := fun _ _ => Except.ok ()
  write := fun _ _ _ => (payloadLength, none)

/-- C3 counterexample: with the `-network-adapter-name` flag unset (empty
string) the send path still invokes the adapter lookup with the empty
name; when that lookup fails (as Go's stdlib does on an empty name) the
whole run terminates with the adapter-lookup exit code — the resolver is
not skipped and OS default routing is never reached. -/
theorem unsetAdapterName_fatal_counterexample :
    mainRun envEmptyNameLookupFails
        ⟨false, some [0xAA, 0xBB, 0xCC, 0xDD, 0xEE, 0xFF], ""⟩ =
      ProgOutcome.exit networkAdapterFetchingError :=
  rfl

/-- C3 amended: an unset (empty) adapter name is still passed to the
adapter lookup; whenever the lookup of the empty name fails, the send
path exits with the adapter-lookup error code. -/
theorem emptyName_still_looked_up (env : NetEnv) (e : String)
    (h : env.interfaceByName "" = Except.error e) :
    openUDPConnection env "" = Except.error networkAdapterFetchingError := by
  simp [openUDPConnection, addressFromNetworkAdapterName, h]

/-- Witness for the amended C3 at `envEmptyNameLookupFails`. -/
theorem emptyName_still_looked_up_witness :
    openUDPConnection envEmptyNameLookupFails "" =
      Except.error networkAdapterFetchingError :=
  emptyName_still_looked_up envEmptyNameLookupFails
    "route ip+net: invalid network interface name" rfl

/-! ## Fixed destination (C8) -/

/-- C8: every successfully opened UDP connection has the fixed remote
endpoint 255.255.255.255 on UDP port 7, whatever the environment and the
adapter-name flag. -/
theorem remote_endpoint_fixed (env : NetEnv) (name : String) (conn : UDPConn)
    (h : openUDPConnection env name = Except.ok conn) :
    conn.remoteAddr = remoteBroadcastAddress ∧
    remoteBroadcastAddress = ⟨[255, 255, 255, 255], 7⟩ := by
  refine ⟨?_, rfl⟩
  unfold openUDPConnection at h
  split at h
  · exact Except.noConfusion h
  · split at h
    · exact Except.noConfusion h
    · cases h; rfl

/-- Witness for C8 at `envNoQualifyingAddress`. -/
theorem remote_endpoint_fixed_witness :
    (⟨none, remoteBroadcastAddress⟩ : UDPConn).remoteAddr = remoteBroadcastAddress ∧
    remoteBroadcastAddress = ⟨[255, 255, 255, 255], 7⟩ :=
  remote_endpoint_fixed envNoQualifyingAddress "eth0"
    ⟨none, remoteBroadcastAddress⟩ rfl

/-! ## Send step (C5) -/

/-- C5: the send step reports success exactly when the OS write returns
102 bytes and no error; a write error exits with the sending error code,
a clean write of any other byte count exits with the distinct
partial-send error code. -/
theorem send_success_iff_exact (env : NetEnv) (conn : UDPConn)
    (payload : List Nat) :
    (sendWOLPayload env conn payload = SendResult.sent ↔
      env.write conn.localAddr conn.remoteAddr payload = (payloadLength, none)) ∧
    (∀ n e, env.write conn.localAddr conn.remoteAddr payload = (n, some e) →
      sendWOLPayload env conn payload = SendResult.exit wolPayloadSendingError) ∧
    (∀ n, env.write conn.localAddr conn.remoteAddr payload = (n, none) →
      n ≠ payloadLength →
      sendWOLPayload env conn payload =
        SendResult.exit notAllWOLPayloadBytesSentError) ∧
    wolPayloadSendingError ≠ notAllWOLPayloadBytesSentError ∧
    payloadLength = 102 := by
  rcases hw : env.write conn.localAddr conn.remoteAddr payload with ⟨n, err⟩
  refine ⟨?_, ?_, ?_, by decide, by decide⟩
  · cases err with
    | some e => simp [sendWOLPayload, hw]
    | none =>
      by_cases hn : n = payloadLength
      · subst hn; simp [sendWOLPayload, hw]
      · simp [sendWOLPayload, hw, hn]
  · intro m e hme
    injection hme with h1 h2
    subst h2
    simp [sendWOLPayload, hw]
  · intro m hme hne
    injection hme with h1 h2
    subst h1; subst h2
    simp [sendWOLPayload, hw, hne]

/-- Witness for C5: a clean 102-byte write reports success. -/
theorem send_success_iff_exact_witness :
    sendWOLPayload envNoQualifyingAddress ⟨none, remoteBroadcastAddress⟩
      (createWOLPayload [0xAA, 0xBB, 0xCC, 0xDD, 0xEE, 0xFF]) = SendResult.sent :=
  (send_success_iff_exact envNoQualifyingAddress ⟨none, remoteBroadcastAddress⟩
    (createWOLPayload [0xAA, 0xBB, 0xCC, 0xDD, 0xEE, 0xFF])).1.mpr rfl

/-! ## Exit code taxonomy (C6) -/

/-- The eight fatal conditions named by the spec's exit-behavior
sentence. -/
inductive FatalCondition where
  | unparseableAddress
  | missingAddress
  | wrongAddressLength
  | adapterLookupFailure
  | addressEnumerationFailure
  | socketOpenFailure
  | sendFailure
  | partialSend
deriving DecidableEq, Repr, Fintype

/-- The exit code each fatal condition terminates with: the code used at
the `os.Exit` call of the corresponding path in src/main.go (for an
unparseable address, the flag package's ExitOnError code triggered by
`parseMACAddressFlag` returning an error). -/
def exitCodeOf : FatalCondition → Nat
  | FatalCondition.unparseableAddress => flagParseExitCode
  | FatalCondition.missingAddress => macAddressNotInformedError
  | FatalCondition.wrongAddressLength => macAddressNotEUI48Error
  | FatalCondition.adapterLookupFailure => networkAdapterFetchingError
  | FatalCondition.addressEnumerationFailure => networkAdapterAddressesFetchingError
  | FatalCondition.socketOpenFailure => udpConnectionError
  | FatalCondition.sendFailure => wolPayloadSendingError
  | FatalCondition.partialSend => notAllWOLPayloadBytesSentError

/-- C6: no two of the eight fatal conditions share an exit code, none of
them exits 0, and a successful run exits 0; the missing-address and
wrong-length checks indeed exit with their reserved codes. -/
theorem exit_codes_distinct_nonzero :
    (∀ c1 c2 : FatalCondition, exitCodeOf c1 = exitCodeOf c2 → c1 = c2) ∧
    (∀ c : FatalCondition, exitCodeOf c ≠ successExitCode) ∧
    checkParsedMACAddress ⟨false, none, ""⟩ =
      some (exitCodeOf FatalCondition.missingAddress) ∧
    checkParsedMACAddress ⟨false, some [0xAA, 0xBB], ""⟩ =
      some (exitCodeOf FatalCondition.wrongAddressLength) ∧
    outcomeExitCode
        (mainRun envNoQualifyingAddress
          ⟨false, some [0xAA, 0xBB, 0xCC, 0xDD, 0xEE, 0xFF], "eth0"⟩) =
      successExitCode :=
  ⟨by decide, by decide, rfl, rfl, rfl⟩

/-- Witness for C6: the injectivity and non-zero parts applied at
concrete conditions. -/
theorem exit_codes_distinct_nonzero_witness :
    FatalCondition.sendFailure = FatalCondition.sendFailure ∧
    exitCodeOf FatalCondition.partialSend ≠ successExitCode :=
  ⟨exit_codes_distinct_nonzero.1 FatalCondition.sendFailure
      FatalCondition.sendFailure rfl,
    exit_codes_distinct_nonzero.2.1 FatalCondition.partialSend⟩

/-! ## Length check precedes the builder (C7) -/

/-- C7: in the send path (listing mode off), once `checkParsedMACAddress`
has passed, the stored hardware address exists and has exactly 6 bytes —
so the builder (which `mainRun` only invokes after this check, on
`flags.macAddress.getD []`) indexes the address strictly within bounds
and produces the full 102-byte payload. -/
theorem mac_checked_before_builder (flags : ProgramFlags)
    (hlist : flags.listNetworkAdapters = false)
    (hchk : checkParsedMACAddress flags = none) :
    ∃ mac, flags.macAddress = some mac ∧
      mac.length = eui48Length ∧
      flags.macAddress.getD [] = mac ∧
      (∀ j, j < eui48Length → j < mac.length) ∧
      (createWOLPayload mac).length = payloadLength := by
  cases hm : flags.macAddress with
  | none => simp [checkParsedMACAddress, hlist, hm] at hchk
  | some mac =>
    have hlen : mac.length = eui48Length := by
      by_contra hne
      simp [checkParsedMACAddress, hlist, hm, hne] at hchk
    refine ⟨mac, rfl, hlen, rfl, ?_, ?_⟩
    · intro j hj
      rw [hlen]
      exact hj
    · rw [createWOLPayload_length]
      rfl

/-- Witness for C7 at a concrete checked flag set. -/
theorem mac_checked_before_builder_witness :
    ∃ mac,
      (ProgramFlags.mk false (some [0xAA, 0xBB, 0xCC, 0xDD, 0xEE, 0xFF])
          "eth0").macAddress = some mac ∧
      mac.length = eui48Length ∧
      (ProgramFlags.mk false (some [0xAA, 0xBB, 0xCC, 0xDD, 0xEE, 0xFF])
          "eth0").macAddress.getD [] = mac ∧
      (∀ j, j < eui48Length → j < mac.length) ∧
      (createWOLPayload mac).length = payloadLength :=
  mac_checked_before_builder
    ⟨false, some [0xAA, 0xBB, 0xCC, 0xDD, 0xEE, 0xFF], "eth0"⟩ rfl rfl

/-! ## Adapter-listing mode (C9, C10) -/

theorem addressFromNetworkAdapter_error_code (a : Interface) (c : Nat)
    (h : addressFromNetworkAdapter a = Except.error c) :
    c = networkAdapterAddressesFetchingError := by
  unfold addressFromNetworkAdapter at h
  split at h
  · cases h; rfl
  · exact Except.noConfusion h

theorem listAdaptersLoop_error_of_mem (adapters : List Interface)
    (hbad : ∃ a ∈ adapters, ∃ e, a.addrs = Except.error e) :
    listAdaptersLoop adapters =
      Except.error networkAdapterAddressesFetchingError := by
  induction adapters with
  | nil =>
    obtain ⟨a, ha, _⟩ := hbad
    exact absurd ha (List.not_mem_nil a)
  | cons b rest ih =>
    obtain ⟨a, ha, e, he⟩ := hbad
    rcases List.mem_cons.mp ha with rfl | hmem
    · simp [listAdaptersLoop, addressFromNetworkAdapter, he]
    · have htail := ih ⟨a, hmem, e, he⟩
      cases hb : addressFromNetworkAdapter b with
      | error code =>
        have hc := addressFromNetworkAdapter_error_code b code hb
        simp [listAdaptersLoop, hb, hc]
      | ok oaddr =>
        cases oaddr with
        | none => simp [listAdaptersLoop, hb, htail]
        | some addr => simp [listAdaptersLoop, hb, htail]

/-- The line `listNetworkAdapters` prints for one adapter, when it prints
one: the selected local IPv4 address and the adapter's name.  `none`
when the resolver finds no qualifying address (the adapter is skipped). -/
def adapterLine (a : Interface) : Option (List Nat × String) :=
  match addressFromNetworkAdapter a with
  | Except.ok (some addr) => some (addr.ip, a.name)
  | _ => none

theorem listAdaptersLoop_ok (adapters : List Interface)
    (hok : ∀ a ∈ adapters, ∃ l, a.addrs = Except.ok l) :
    listAdaptersLoop adapters = Except.ok (adapters.filterMap adapterLine) := by
  induction adapters with
  | nil => rfl
  | cons b rest ih =>
    obtain ⟨l, hl⟩ := hok b (List.mem_cons_self b rest)
    have htail := ih (fun a ha => hok a (List.mem_cons_of_mem b ha))
    have hab : addressFromNetworkAdapter b =
        Except.ok (firstQualifyingAddress l) := by
      simp [addressFromNetworkAdapter, hl]
    cases hfq : firstQualifyingAddress l with
    | none =>
      rw [hfq] at hab
      simp [listAdaptersLoop, hab, htail, List.filterMap_cons, adapterLine]
    | some addr =>
      rw [hfq] at hab
      simp [listAdaptersLoop, hab, htail, List.filterMap_cons, adapterLine]

/-- C9: in listing mode, if any enumerated adapter's address fetch fails,
the whole listing terminates with the address-enumeration exit code (no
adapter is skipped over a fetch failure); when every fetch succeeds, the
listing processes the adapters in the OS-provided enumeration order,
producing exactly the per-adapter lines in that order. -/
theorem listing_fatal_on_adapter_failure (env : NetEnv)
    (adapters : List Interface) (hif : env.interfaces = Except.ok adapters) :
    ((∃ a ∈ adapters, ∃ e, a.addrs = Except.error e) →
      listNetworkAdapters env =
        Except.error networkAdapterAddressesFetchingError) ∧
    ((∀ a ∈ adapters, ∃ l, a.addrs = Except.ok l) →
      listNetworkAdapters env = Except.ok (adapters.filterMap adapterLine)) := by
  constructor
  · intro hbad
    rw [listNetworkAdapters, hif]
    exact listAdaptersLoop_error_of_mem adapters hbad
  · intro hok
    rw [listNetworkAdapters, hif]
    exact listAdaptersLoop_ok adapters hok

/-- An adapter whose `Addrs()` call fails. -/
def badAddrsAdapter : Interface := ⟨2, "eth1", Except.error "device busy"⟩

/-- A listing environment with one healthy-but-unqualified adapter and
one adapter whose address fetch fails. -/
def envBadAdapterListing : NetEnv where
  interfaceByName := fun _ => Except.ok loopbackOnlyAdapter
  interfaces := Except.ok [loopbackOnlyAdapter, badAddrsAdapter]
  dialUDP := fun _ _ => Except.ok ()
  write := fun _ _ _ => (payloadLength, none)

/-- Witness for C9: the second adapter's fetch failure aborts the whole
listing with the address-enumeration code. -/
theorem listing_fatal_on_adapter_failure_witness :
    listNetworkAdapters envBadAdapterListing =
      Except.error networkAdapterAddressesFetchingError :=
  (listing_fatal_on_adapter_failure envBadAdapterListing
      [loopbackOnlyAdapter, badAddrsAdapter] rfl).1
    ⟨badAddrsAdapter,
      List.mem_cons_of_mem loopbackOnlyAdapter
        (List.mem_cons_self badAddrsAdapter []),
      "device busy", rfl⟩

/-- C10: in listing mode (all address fetches succeeding), the run
completes successfully (exit code 0) and prints exactly one line per
adapter for which the resolver returns an address, in order — an adapter
for which the resolver finds no qualifying address is silently omitted. -/
theorem listing_omits_unqualified (env : NetEnv) (flags : ProgramFlags)
    (adapters : List Interface)
    (hlist : flags.listNetworkAdapters = true)
    (hif : env.interfaces = Except.ok adapters)
    (hok : ∀ a ∈ adapters, ∃ l, a.addrs = Except.ok l) :
    mainRun env flags = ProgOutcome.listed (adapters.filterMap adapterLine) ∧
    outcomeExitCode (mainRun env flags) = successExitCode ∧
    (∀ a ∈ adapters, ∀ addr, addressFromNetworkAdapter a = Except.ok (some addr) →
      adapterLine a = some (addr.ip, a.name)) ∧
    (∀ a ∈ adapters, addressFromNetworkAdapter a = Except.ok none →
      adapterLine a = none) := by
  have hmain : mainRun env flags =
      ProgOutcome.listed (adapters.filterMap adapterLine) := by
    simp [mainRun, checkParsedMACAddress, hlist, listNetworkAdapters, hif,
      listAdaptersLoop_ok adapters hok]
  refine ⟨hmain, by rw [hmain]; rfl, ?_, ?_⟩
  · intro a _ addr ha
    simp [adapterLine, ha]
  · intro a _ ha
    simp [adapterLine, ha]

/-- An adapter carrying a qualifying (non-loopback IPv4) address. -/
def goodAdapter : Interface :=
  ⟨3, "eth0", Except.ok [NetAddr.ipNet [192, 168, 1, 20]]⟩

/-- A listing environment mixing an unqualified adapter with a qualified
one. -/
def envMixedListing : NetEnv where
  interfaceByName := fun _ => Except.ok goodAdapter
  interfaces := Except.ok [loopbackOnlyAdapter, goodAdapter]
  dialUDP := fun _ _ => Except.ok ()
  write := fun _ _ _ => (payloadLength, none)

/-- Witness for C10 at `envMixedListing`. -/
theorem listing_omits_unqualified_witness :
    mainRun envMixedListing ⟨true, none, ""⟩ =
      ProgOutcome.listed
        ([loopbackOnlyAdapter, goodAdapter].filterMap adapterLine) ∧
    outcomeExitCode (mainRun envMixedListing ⟨true, none, ""⟩) =
      successExitCode ∧
    (∀ a ∈ [loopbackOnlyAdapter, goodAdapter], ∀ addr,
      addressFromNetworkAdapter a = Except.ok (some addr) →
      adapterLine a = some (addr.ip, a.name)) ∧
    (∀ a ∈ [loopbackOnlyAdapter, goodAdapter],
      addressFromNetworkAdapter a = Except.ok none → adapterLine a = none) :=
  listing_omits_unqualified envMixedListing ⟨true, none, ""⟩
    [loopbackOnlyAdapter, goodAdapter] rfl rfl
    (by
      intro a ha
      rcases List.mem_cons.mp ha with rfl | ha2
      · exact ⟨_, rfl⟩
      · rcases List.mem_cons.mp ha2 with rfl | ha3
        · exact ⟨_, rfl⟩
        · exact absurd ha3 (List.not_mem_nil a))

end WOL
